import Mathlib

/-!
Verification development for the contacts-management backend
(FastAPI + SQLAlchemy + passlib + PyJWT + Redis).

The Python sources are embedded shallowly:

* database rows become Lean structures; a table is a `List` of rows kept in
  insertion order;
* SQLAlchemy queries become pure list operations (a chained query builds one
  `SELECT`: the `WHERE` clauses always apply before `OFFSET`/`LIMIT`, no
  matter the order in which `.where`/`.offset`/`.limit` were chained);
* `scalar_one_or_none` returns `Option` but raises `MultipleResultsFound`
  when more than one row matches, so fallible paths return `Except`;
* Python exceptions that escape a handler (`KeyError`, `AttributeError`,
  passlib's `UnknownHashError`) are explicit error values;
* PostgreSQL dates are a proleptic-Gregorian calendar on `Nat` fields with
  day arithmetic through a day-number conversion (the years in play are
  1900..2100, so all intermediate quantities stay non-negative).
-/

namespace ContactsApp

/-! ## Calendar: proleptic Gregorian dates and day arithmetic

PostgreSQL `date` values.  `dayNumber` and `dateOfDayNumber` convert between
a calendar date and a serial day count (days since 0000-03-01, proleptic
Gregorian), following the standard civil-calendar conversion algorithm, so
that `date - interval 'n days'` can be computed exactly. -/

structure Date where
  year : Nat
  month : Nat
  day : Nat
  deriving DecidableEq, Repr

/-- Serial day count of a date (days since 0000-03-01, proleptic Gregorian).
Valid for years ≥ 1; the application validates dates of birth to lie in
1900-01-01 .. today, so the domain is respected. -/
def dayNumber (d : Date) : Nat :=
  let y := if d.month ≤ 2 then d.year - 1 else d.year
  let era := y / 400
  let yoe := y % 400
  let mp := (d.month + 9) % 12
  let doy := (153 * mp + 2) / 5 + d.day - 1
  era * 146097 + yoe * 365 + yoe / 4 - yoe / 100 + doy

/-- Inverse of `dayNumber`: the calendar date of a serial day count. -/
def dateOfDayNumber (z : Nat) : Date :=
  let era := z / 146097
  let doe := z % 146097
  let yoe := (doe - doe / 1460 + doe / 36524 - doe / 146096) / 365
  let y := yoe + era * 400
  let doy := doe - (365 * yoe + yoe / 4 - yoe / 100)
  let mp := (5 * doy + 2) / 153
  let dd := doy - (153 * mp + 2) / 5 + 1
  let m := if mp < 10 then mp + 3 else mp - 9
  { year := if m ≤ 2 then y + 1 else y, month := m, day := dd }

/-- `d - interval 'n days'` on a PostgreSQL date. -/
def subDays (d : Date) (n : Nat) : Date :=
  dateOfDayNumber (dayNumber d - n)

/-- `d + interval 'n days'` on a PostgreSQL date. -/
def addDays (d : Date) (n : Nat) : Date :=
  dateOfDayNumber (dayNumber d + n)

/-- `(m1, d1)` falls strictly earlier in the year than `(m2, d2)`. -/
def monthDayLt (m1 d1 m2 d2 : Nat) : Bool :=
  m1 < m2 || (m1 == m2 && d1 < d2)

/-- `date_part('year', age(asOf, d))`: PostgreSQL `age` builds a symbolic
interval by field-wise subtraction with borrowing; its years component is
`asOf.year - d.year`, minus one exactly when `(asOf.month, asOf.day)` is
lexicographically before `(d.month, d.day)`. -/
def agePartYear (asOf d : Date) : Int :=
  (asOf.year : Int) - (d.year : Int) -
    (if monthDayLt asOf.month asOf.day d.month d.day then 1 else 0)

/-! ## Python-level failures

Every way a modelled operation can fail: HTTP errors raised deliberately via
`HTTPException`, and Python exceptions that escape the handlers. -/

inductive PyFail where
  /-- `HTTPException(status_code=401)`. -/
  | http401 : PyFail
  /-- `HTTPException(status_code=400)`. -/
  | http400 : PyFail
  /-- `HTTPException(status_code=422)` (or a FastAPI validation error). -/
  | http422 : PyFail
  /-- An uncaught `KeyError` from `payload["sub"]` on a dict without the key. -/
  | keyError : PyFail
  /-- An uncaught `AttributeError` (attribute access on `None`, a missing
  method on a class, or `.get` on a non-dict JSON value). -/
  | attributeError : PyFail
  /-- passlib `UnknownHashError` escaping `CryptContext.verify`. -/
  | unknownHashError : PyFail
  /-- SQLAlchemy `MultipleResultsFound` from `scalar_one_or_none`. -/
  | multipleResults : PyFail
  deriving DecidableEq, Repr

/-- `Result.scalar_one_or_none()`: `None` for no row, the row if unique,
`MultipleResultsFound` otherwise. -/
def scalar_one_or_none {α : Type} : List α → Except PyFail (Option α)
  | [] => .ok none
  | [a] => .ok (some a)
  | _ => .error .multipleResults

/-- A password digest string, as stored in `users.hashed_password` and
handled by passlib: either a well-formed bcrypt digest recording which
password it hashes (the salt is abstracted away), or a malformed string that
no configured passlib scheme recognizes. -/
inductive Digest where
  | bcrypt : String → Digest
  | malformed : String → Digest
  deriving DecidableEq, Repr

/-! ## Data model (src/database/models.py) -/

inductive UserRole where
  | user : UserRole
  | admin : UserRole
  deriving DecidableEq, Repr

/-- Row of the `users` table: `id` primary key, `username` unique not null,
`hashed_password` not null, `email` unique nullable, `role` not null,
`avatar` nullable, `confirmed` default false. -/
structure UserRec where
  id : Nat
  username : String
  email : Option String
  hashed_password : Digest
  role : UserRole
  avatar : Option String
  confirmed : Bool
  deriving DecidableEq, Repr

/-- Row of the `contacts` table: `id` primary key, `first_name` not null,
`last_name` nullable, `email` unique nullable, `phone` unique not null,
`date_of_birth` nullable, `user_id` foreign key to `users.id`. -/
structure Contact where
  id : Nat
  first_name : String
  last_name : Option String
  email : Option String
  phone : String
  date_of_birth : Option Date
  user_id : Nat
  deriving DecidableEq, Repr

/-- A table is its list of rows in insertion order. -/
abbrev ContactTable := List Contact

abbrev UserTable := List UserRec

/-! ## Contact repository (src/repository/contacts.py)

Queries are owner-scoped: `select(Contact).filter_by(user=user)` compiles to
`WHERE contacts.user_id = user.id`.  The repository functions take the
current date as an explicit parameter (`func.age` reads `current_date`), and
state-mutating operations return the new table. -/

namespace ContactRepository

/-- `_age_years_at(date_col, next_days)`:
`date_part('year', age(date_col - cast(timedelta(next_days), Interval)))`
when `next_days != 0`, else `date_part('year', age(date_col))`.
PostgreSQL one-argument `age` measures from `current_date` (`today`). -/
def age_years_at (today : Date) (date_col : Date) (next_days : Nat) : Int :=
  agePartYear today (if next_days ≠ 0 then subDays date_col next_days else date_col)

/-- `_has_birthday_next_days(date_col, next_days)`:
`_age_years_at(date_col, next_days) > _age_years_at(date_col)`. -/
def has_birthday_next_days (today : Date) (date_col : Date) (next_days : Nat) : Bool :=
  age_years_at today date_col next_days > age_years_at today date_col 0

/-- The birthday `WHERE` clause applied to a row: SQL comparisons on a NULL
`date_of_birth` yield NULL, so such rows are filtered out. -/
def birthdayFilter (today : Date) (c : Contact) : Bool :=
  match c.date_of_birth with
  | none => false
  | some d => has_birthday_next_days today d 7

/-- Python truthiness of the `skip`/`limit` arguments (`int | None`): `None`
and `0` are falsy, so `if skip:` / `if limit:` apply the clause only for a
non-zero value.  The HTTP layer always supplies non-negative values, hence
`Nat`. -/
def truthyNat : Option Nat → Bool
  | none => false
  | some n => n != 0

/-- Python truthiness of an optional string filter: `None` and `""` are
falsy, so only a non-empty string adds a `WHERE` clause. -/
def truthyStr : Option String → Bool
  | none => false
  | some s => s != ""

/-- One exact-match `WHERE column = value` clause, applied only when the
argument is truthy. -/
def eqFilter (arg : Option String) (col : Option String) : Bool :=
  match arg with
  | none => true
  | some s => if s != "" then col == some s else true

/-- `get_contacts(user, skip, limit, first_name, last_name, email, birthdays)`.
The chained query compiles to a single `SELECT`: all `WHERE` clauses apply
first, then `OFFSET skip` and `LIMIT limit` (a SQL `LIMIT`/`OFFSET` always
acts on the filtered rows even though the code chains `.offset`/`.limit`
before `.where`). -/
def get_contacts (today : Date) (db : ContactTable) (user : UserRec)
    (skip limit : Option Nat) (first_name last_name email : Option String)
    (birthdays : Bool) : List Contact :=
  let owned := db.filter (fun c => c.user_id == user.id)
  if birthdays then
    owned.filter (birthdayFilter today)
  else
    let filtered := owned.filter (fun c =>
      eqFilter first_name (some c.first_name) &&
      eqFilter last_name c.last_name &&
      eqFilter email c.email)
    let afterSkip := if truthyNat skip then filtered.drop (skip.getD 0) else filtered
    if truthyNat limit then afterSkip.take (limit.getD 0) else afterSkip

/-- `get_contact_by_id(user, contact_id)`:
`select(Contact).filter_by(user=user, id=contact_id)` then
`scalar_one_or_none`. -/
def get_contact_by_id (db : ContactTable) (user : UserRec) (contact_id : Nat) :
    Except PyFail (Option Contact) :=
  scalar_one_or_none (db.filter (fun c => c.user_id == user.id && c.id == contact_id))

/-- The update payload: `body.model_dump(exclude_unset=True)`.  The outer
`Option` is "the key was supplied in the request"; for nullable columns the
inner `Option` is the supplied column value.  `id` and `user_id` are not
fields of `ContactModel`, so they can never be touched. -/
structure ContactBody where
  first_name : Option String := none
  last_name : Option (Option String) := none
  email : Option (Option String) := none
  phone : Option String := none
  date_of_birth : Option (Option Date) := none
  deriving DecidableEq, Repr

/-- `for key, value in update_data.items(): setattr(contact, key, value)`. -/
def applyUpdate (c : Contact) (b : ContactBody) : Contact :=
  { c with
    first_name := b.first_name.getD c.first_name
    last_name := b.last_name.getD c.last_name
    email := b.email.getD c.email
    phone := b.phone.getD c.phone
    date_of_birth := b.date_of_birth.getD c.date_of_birth }

/-- `update_contact(user, contact_id, body)`: looks the row up owner-scoped;
if present, mutates the supplied fields in place and commits.  The mutated
object is the unique row matched by `(user_id, id)` (`scalar_one_or_none`
guarantees uniqueness on the success path), so the commit rewrites exactly
the rows matching that predicate. -/
def update_contact (db : ContactTable) (user : UserRec) (contact_id : Nat)
    (body : ContactBody) : Except PyFail (Option Contact × ContactTable) :=
  match get_contact_by_id db user contact_id with
  | .error e => .error e
  | .ok none => .ok (none, db)
  | .ok (some c) =>
    let c' := applyUpdate c body
    .ok (some c', db.map (fun x =>
      if x.user_id == user.id && x.id == contact_id then c' else x))

/-- `remove_contact(user, contact_id)`: owner-scoped lookup; if present,
deletes the row and commits, returning the deleted row's prior state. -/
def remove_contact (db : ContactTable) (user : UserRec) (contact_id : Nat) :
    Except PyFail (Option Contact × ContactTable) :=
  match get_contact_by_id db user contact_id with
  | .error e => .error e
  | .ok none => .ok (none, db)
  | .ok (some c) =>
    .ok (some c, db.filter (fun x => !(x.user_id == user.id && x.id == contact_id)))

end ContactRepository

/-! ## User repository (src/repository/users.py) -/

namespace UserRepository

/-- `get_user_by_username(username)`: `select(User).filter_by(username=...)`
then `scalar_one_or_none`. -/
def get_user_by_username (db : UserTable) (username : String) :
    Except PyFail (Option UserRec) :=
  scalar_one_or_none (db.filter (fun u => u.username == username))

/-- `get_user_by_email(email)`: `select(User).filter_by(email=...)` then
`scalar_one_or_none`.  The argument is `Option String` because callers pass
the subject claim of a decoded token, which can be `None`;
`filter_by(email=None)` compiles to `WHERE email IS NULL`. -/
def get_user_by_email (db : UserTable) (email : Option String) :
    Except PyFail (Option UserRec) :=
  scalar_one_or_none (db.filter (fun u => u.email == email))

/-- `update_avatar_url(email, url)`: looks the user up by email and runs
`user.avatar = url`.  When the lookup returns `None`, the attribute
assignment raises an uncaught `AttributeError`.  On success the commit
rewrites the unique row matching the email. -/
def update_avatar_url (db : UserTable) (email : Option String) (url : String) :
    Except PyFail (UserRec × UserTable) :=
  match get_user_by_email db email with
  | .error e => .error e
  | .ok none => .error .attributeError
  | .ok (some u) =>
    let u' := { u with avatar := some url }
    .ok (u', db.map (fun x => if x.email == email then u' else x))

/-- `confirmed_email(email)`: looks the user up by email and runs
`user.confirmed = True` followed by one commit; `AttributeError` when the
user is absent. -/
def confirmed_email (db : UserTable) (email : Option String) :
    Except PyFail UserTable :=
  match get_user_by_email db email with
  | .error e => .error e
  | .ok none => .error .attributeError
  | .ok (some u) =>
    .ok (db.map (fun x => if x.email == email then { u with confirmed := true } else x))

/-- `update_password(email, password)`: looks the user up by email and runs
`user.hashed_password = password` followed by one commit; `AttributeError`
when the user is absent. -/
def update_password (db : UserTable) (email : Option String) (password : Digest) :
    Except PyFail UserTable :=
  match get_user_by_email db email with
  | .error e => .error e
  | .ok none => .error .attributeError
  | .ok (some u) =>
    .ok (db.map (fun x => if x.email == email then { u with hashed_password := password } else x))

end UserRepository

/-! ## Credential hasher (src/services/auth.py, class Hash)

`Hash` wraps passlib's `CryptContext(schemes=["bcrypt"])`, an external
dependency, over the abstract `Digest` type above.  passlib's documented
behaviour: `CryptContext.verify` compares against a recognized hash, and
raises `UnknownHashError` when the hash cannot be identified; it does not
return `False` in that case. -/

namespace CryptContext

/-- passlib `CryptContext.verify(secret, hash)`. -/
def verify (plain : String) (digest : Digest) : Except PyFail Bool :=
  match digest with
  | .bcrypt pw => .ok (pw == plain)
  | .malformed _ => .error .unknownHashError

/-- passlib `CryptContext.hash(secret)`: a fresh bcrypt digest of the
password (salt abstracted away). -/
def hash (plain : String) : Digest := .bcrypt plain

end CryptContext

namespace Hash

/-- `Hash.verify_password(plain_password, hashed_password)`: delegates to
`pwd_context.verify` with no exception handling, so passlib failures
propagate to the caller. -/
def verify_password (plain : String) (hashed : Digest) : Except PyFail Bool :=
  CryptContext.verify plain hashed

/-- `Hash.get_password_hash(password)`. -/
def get_password_hash (password : String) : Digest :=
  CryptContext.hash password

end Hash

/-! ## Tokens (src/services/auth.py)

A JWT is modelled as its decoded payload plus a flag saying whether
`jwt.decode` succeeds: PyJWT raises an `InvalidTokenError` subclass on a
signature failure, an expired `exp`, or a malformed token, and those are the
only failures of `decode`.  A claim value is `none` for JSON `null`
(`"sub": null`) and `some s` for a string. -/

structure Jwt where
  /-- `jwt.decode` succeeds: well-formed, signature valid, not expired. -/
  decodes : Bool
  /-- The decoded payload: claim name to value (`none` models JSON null). -/
  claims : List (String × Option String)
  deriving DecidableEq, Repr

/-- `jwt.decode(token, JWT_SECRET, algorithms=[JWT_ALGORITHM])`. -/
def jwt_decode (t : Jwt) : Except PyFail (List (String × Option String)) :=
  if t.decodes then .ok t.claims else .error .http422

/-- Python `payload["sub"]`: the value when the key is present (possibly
JSON null), otherwise a `KeyError` — which is not an `InvalidTokenError`,
so the `except InvalidTokenError` handlers do not catch it. -/
def dictGetSub (payload : List (String × Option String)) :
    Except PyFail (Option String) :=
  match payload.lookup "sub" with
  | none => .error .keyError
  | some v => .ok v

/-- `get_email_from_token(token)`: decode, then `payload["sub"]`.  A decode
failure is caught and re-raised as HTTP 422; a missing `sub` key raises an
uncaught `KeyError`. -/
def get_email_from_token (t : Jwt) : Except PyFail (Option String) :=
  match jwt_decode t with
  | .error _ => .error .http422
  | .ok payload => dictGetSub payload

/-! ## Session cache (src/services/cache.py)

A cached entry is the raw string stored in Redis, classified by what
`json.loads` makes of it: not JSON at all (raises `JSONDecodeError`, which
`get_cached_current_user` catches), a JSON object (deserialized into a
`User` via `data.get(...)` — modelled as carrying that user), or valid JSON
that is not an object (`json.loads` succeeds, then `data.get` raises an
uncaught `AttributeError`). -/

inductive CacheEntry where
  /-- `json.loads` raises `json.JSONDecodeError`. -/
  | notJson : CacheEntry
  /-- A JSON object whose fields deserialize to this user snapshot. -/
  | jsonObject : UserRec → CacheEntry
  /-- Valid JSON that is not an object (number, string, array, ...):
  `data.get("id")` raises `AttributeError`. -/
  | jsonNonObject : CacheEntry
  deriving DecidableEq, Repr

/-- The Redis keyspace: key `"user:" ++ username` to raw entry. -/
abbrev CacheState := List (String × CacheEntry)

/-- `get_cached_current_user(username)`: fetch `user:{username}`; absent key
or a `JSONDecodeError` yield `None`; an object entry yields the user; a
non-object JSON entry raises `AttributeError`. -/
def get_cached_current_user (cache : CacheState) (username : String) :
    Except PyFail (Option UserRec) :=
  match cache.lookup ("user:" ++ username) with
  | none => .ok none
  | some .notJson => .ok none
  | some (.jsonObject u) => .ok (some u)
  | some .jsonNonObject => .error .attributeError

/-! ## Authentication gate (src/services/auth.py, get_current_user) -/

/-- `get_current_user(token, db)`: decode the bearer token (`except
InvalidTokenError` re-raises as the 401 credentials error), read
`payload["sub"]` (`KeyError` is uncaught when the key is absent; an explicit
`if username is None` check raises the 401 error), then consult the session
cache and fall back to the user store, raising 401 when the user is absent
there too. -/
def get_current_user (t : Jwt) (cache : CacheState) (db : UserTable) :
    Except PyFail UserRec :=
  match jwt_decode t with
  | .error _ => .error .http401
  | .ok payload =>
    match dictGetSub payload with
    | .error e => .error e
    | .ok none => .error .http401
    | .ok (some username) =>
      match get_cached_current_user cache username with
      | .error e => .error e
      | .ok (some u) => .ok u
      | .ok none =>
        match UserRepository.get_user_by_username db username with
        | .error e => .error e
        | .ok none => .error .http401
        | .ok (some u) => .ok u

/-! ## User service facade (src/services/users.py)

`UserService` delegates to `UserRepository`.  The class body defines exactly
the methods listed below; Python resolves any other attribute access on a
`UserService` instance to an `AttributeError` at call time. -/

namespace UserService

/-- The methods defined on `class UserService` in src/services/users.py. -/
def methods : List String :=
  ["create_user", "get_user_by_id", "get_user_by_username",
   "get_user_by_email", "update_avatar_url", "confirmed_email"]

/-- `UserService.get_user_by_email` delegates to the repository. -/
def get_user_by_email (db : UserTable) (email : Option String) :
    Except PyFail (Option UserRec) :=
  UserRepository.get_user_by_email db email

/-- `UserService.confirmed_email` delegates to the repository. -/
def confirmed_email (db : UserTable) (email : Option String) :
    Except PyFail UserTable :=
  UserRepository.confirmed_email db email

end UserService

/-! ## Auth API endpoints (src/api/auth.py) -/

namespace AuthApi

/-- `GET /auth/confirmed_email/{token}`: extract the email from the action
token, look the user up (404-style 400 when absent), short-circuit with
"already verified" when `user.confirmed`, otherwise call the store once.
The result records the message, the new table, and how many store mutations
were performed. -/
def confirmed_email (db : UserTable) (t : Jwt) :
    Except PyFail (String × UserTable × Nat) :=
  match get_email_from_token t with
  | .error e => .error e
  | .ok email =>
    match UserService.get_user_by_email db email with
    | .error e => .error e
    | .ok none => .error .http400
    | .ok (some user) =>
      if user.confirmed then
        .ok ("Your email is already verified", db, 0)
      else
        match UserService.confirmed_email db email with
        | .error e => .error e
        | .ok db' => .ok ("Your email is verified", db', 1)

/-- `POST /auth/reset_password/{token}`: extract the email from the action
token (422 on an invalid token), look the user up, 400 when absent or
unconfirmed, hash the submitted password, then call
`user_service.update_password(email, hashed_password)` — a method
`UserService` does not define, so Python raises `AttributeError` before any
store write.  Were the method present, it would delegate to
`UserRepository.update_password` and the 201 message would be returned. -/
def reset_password (db : UserTable) (t : Jwt) (password : String) :
    Except PyFail (String × UserTable) :=
  match get_email_from_token t with
  | .error e => .error e
  | .ok email =>
    match UserService.get_user_by_email db email with
    | .error e => .error e
    | .ok none => .error .http400
    | .ok (some user) =>
      if !user.confirmed then .error .http400
      else
        let hashed := Hash.get_password_hash password
        if UserService.methods.contains "update_password" then
          match UserRepository.update_password db email hashed with
          | .error e => .error e
          | .ok db' => .ok ("Password reset successfully", db')
        else
          .error .attributeError

end AuthApi

/-! ## Contacts API endpoints (src/api/contacts.py) -/

namespace ContactsApi

/-- FastAPI validation of `limit: int = Query(default=10, le=100, ge=10)`:
an omitted query parameter takes the default 10; a supplied value outside
`10 ≤ limit ≤ 100` is rejected with a 422 validation error before the
handler runs — it is not clamped. -/
def validate_limit : Option Nat → Except PyFail Nat
  | none => .ok 10
  | some l => if 10 ≤ l && l ≤ 100 then .ok l else .error .http422

/-- `GET /contacts/` (`read_contacts`): validate the query parameters
(`skip: int = 0` is unvalidated and defaults to 0), then call
`ContactService.get_contacts`, which delegates to the repository with
`birthdays=False`. -/
def read_contacts (today : Date) (db : ContactTable) (user : UserRec)
    (skip limit : Option Nat) (first_name last_name email : Option String) :
    Except PyFail (List Contact) :=
  match validate_limit limit with
  | .error e => .error e
  | .ok l =>
    .ok (ContactRepository.get_contacts today db user
      (some (skip.getD 0)) (some l) first_name last_name email false)

/-- `GET /contacts/birthdays` (`read_contacts_with_birthdays`): calls
`get_contacts(user, birthdays=True)`. -/
def read_contacts_with_birthdays (today : Date) (db : ContactTable)
    (user : UserRec) : List Contact :=
  ContactRepository.get_contacts today db user none none none none none true

end ContactsApi

/-! ## Helper lemmas -/

theorem scalar_one_iff {α : Type} {l : List α} {a : α} :
    scalar_one_or_none l = .ok (some a) ↔ l = [a] := by
  match l with
  | [] => simp [scalar_one_or_none]
  | [x] => simp [scalar_one_or_none]
  | x :: y :: ys => simp [scalar_one_or_none]

theorem scalar_none_iff {α : Type} {l : List α} :
    scalar_one_or_none l = .ok none ↔ l = [] := by
  match l with
  | [] => simp [scalar_one_or_none]
  | [x] => simp [scalar_one_or_none]
  | x :: y :: ys => simp [scalar_one_or_none]

theorem filter_map_of_pres {α : Type} (p : α → Bool) (f : α → α)
    (h : ∀ x, p (f x) = p x) (l : List α) :
    (l.map f).filter p = (l.filter p).map f := by
  induction l with
  | nil => rfl
  | cons x xs ih =>
    by_cases hx : p x
    · simp [List.filter_cons, h x, hx, ih]
    · simp [List.filter_cons, h x, hx, ih]

/-! ## Claims -/

/-- C9: at the repository layer, `get_contacts` treats `skip=0` and
`limit=0` the same as omitting them: with `limit=0` no row limit is applied
(the full owner-scoped result set comes back, not zero rows), with `skip=0`
no offset is applied, and only strictly positive values constrain the query
(a positive skip drops that many filtered rows, a positive limit truncates
to that many). -/
theorem c9_get_contacts_zero_means_omitted (today : Date) (db : ContactTable)
    (u : UserRec) (s l : Option Nat) (f1 f2 f3 : Option String) (j k : Nat) :
    ContactRepository.get_contacts today db u (some 0) l f1 f2 f3 false =
      ContactRepository.get_contacts today db u none l f1 f2 f3 false ∧
    ContactRepository.get_contacts today db u s (some 0) f1 f2 f3 false =
      ContactRepository.get_contacts today db u s none f1 f2 f3 false ∧
    ContactRepository.get_contacts today db u none (some 0) none none none false =
      db.filter (fun c => c.user_id == u.id) ∧
    ContactRepository.get_contacts today db u (some (j + 1)) (some (k + 1))
        none none none false =
      ((db.filter (fun c => c.user_id == u.id)).drop (j + 1)).take (k + 1) := by
  refine ⟨?_, ?_, ?_, ?_⟩
  · simp [ContactRepository.get_contacts, ContactRepository.truthyNat]
  · simp [ContactRepository.get_contacts, ContactRepository.truthyNat]
  · simp [ContactRepository.get_contacts, ContactRepository.truthyNat,
      ContactRepository.eqFilter]
  · simp [ContactRepository.get_contacts, ContactRepository.truthyNat,
      ContactRepository.eqFilter]

/-- C6 counterexample: for a malformed (non-bcrypt) digest,
`Hash.verify_password` raises passlib's `UnknownHashError` to its caller
instead of returning false. -/
theorem c6_cex_malformed_digest_raises :
    Hash.verify_password "password" (Digest.malformed "not-a-hash") =
      .error .unknownHashError ∧
    Hash.verify_password "password" (Digest.malformed "not-a-hash") ≠ .ok false := by
  exact ⟨rfl, by simp [Hash.verify_password, CryptContext.verify]⟩

/-- C6 amended: `Hash.verify_password` delegates to passlib with no
exception handling, so a malformed digest makes `UnknownHashError`
propagate to the caller; verification returns false (without raising) for a
well-formed bcrypt digest of a different password, and true for a digest of
the same password. -/
theorem c6_verify_password_behaviour (pw raw other : String) :
    Hash.verify_password pw (Digest.malformed raw) = .error .unknownHashError ∧
    (other ≠ pw → Hash.verify_password pw (Digest.bcrypt other) = .ok false) ∧
    Hash.verify_password pw (Digest.bcrypt pw) = .ok true := by
  refine ⟨rfl, ?_, ?_⟩
  · intro h
    simp [Hash.verify_password, CryptContext.verify, h]
  · simp [Hash.verify_password, CryptContext.verify]

/-- C6 witness: the amended statement at concrete strings. -/
theorem c6_verify_password_behaviour_witness :
    Hash.verify_password "pw" (Digest.malformed "zzz") = .error .unknownHashError ∧
    Hash.verify_password "pw" (Digest.bcrypt "other") = .ok false ∧
    Hash.verify_password "pw" (Digest.bcrypt "pw") = .ok true :=
  ⟨(c6_verify_password_behaviour "pw" "zzz" "other").1,
   (c6_verify_password_behaviour "pw" "zzz" "other").2.1 (by decide),
   (c6_verify_password_behaviour "pw" "zzz" "other").2.2⟩

/-- C10: the `UserRepository` mutators `update_avatar_url`,
`confirmed_email` and `update_password` presuppose that a user with the
given email exists: under that precondition the null-dereference branch is
unreachable and each operation succeeds with the corresponding single-field
mutation, while for an email with no matching user each raises an
`AttributeError` on the absent lookup result instead of returning absent. -/
theorem c10_user_mutators_presuppose_user (db : UserTable) (email : Option String)
    (url : String) (pw : Digest) :
    (∀ u, UserRepository.get_user_by_email db email = .ok (some u) →
      UserRepository.update_avatar_url db email url =
        .ok ({ u with avatar := some url },
          db.map (fun x => if x.email == email then { u with avatar := some url } else x)) ∧
      UserRepository.confirmed_email db email =
        .ok (db.map (fun x => if x.email == email then { u with confirmed := true } else x)) ∧
      UserRepository.update_password db email pw =
        .ok (db.map (fun x => if x.email == email then { u with hashed_password := pw } else x))) ∧
    (UserRepository.get_user_by_email db email = .ok none →
      UserRepository.update_avatar_url db email url = .error .attributeError ∧
      UserRepository.confirmed_email db email = .error .attributeError ∧
      UserRepository.update_password db email pw = .error .attributeError) := by
  constructor
  · intro u h
    refine ⟨?_, ?_, ?_⟩ <;>
      simp [UserRepository.update_avatar_url, UserRepository.confirmed_email,
        UserRepository.update_password, h]
  · intro h
    refine ⟨?_, ?_, ?_⟩ <;>
      simp [UserRepository.update_avatar_url, UserRepository.confirmed_email,
        UserRepository.update_password, h]

/-- C10 witness: one existing user succeeds, a missing email raises. -/
theorem c10_user_mutators_presuppose_user_witness :
    UserRepository.update_avatar_url
        [⟨1, "testuser", some "test@example.com", Digest.bcrypt "pw", UserRole.user, none, false⟩]
        (some "test@example.com") "http://new-avatar.com" =
      .ok (⟨1, "testuser", some "test@example.com", Digest.bcrypt "pw", UserRole.user,
            some "http://new-avatar.com", false⟩,
        [⟨1, "testuser", some "test@example.com", Digest.bcrypt "pw", UserRole.user,
          some "http://new-avatar.com", false⟩]) ∧
    UserRepository.confirmed_email [] (some "missing@example.com") =
      .error .attributeError := by
  constructor
  · exact ((c10_user_mutators_presuppose_user
      [⟨1, "testuser", some "test@example.com", Digest.bcrypt "pw", UserRole.user, none, false⟩]
      (some "test@example.com") "http://new-avatar.com" (Digest.bcrypt "pw")).1
      ⟨1, "testuser", some "test@example.com", Digest.bcrypt "pw", UserRole.user, none, false⟩
      rfl).1
  · exact ((c10_user_mutators_presuppose_user [] (some "missing@example.com")
      "u" (Digest.bcrypt "pw")).2 rfl).2.1

/-- C5 counterexample: a well-signed, unexpired token whose payload lacks
the `sub` key makes `payload["sub"]` raise an uncaught `KeyError` in both
the authentication gate and action-token verification — neither the 401
credentials error nor the 422 invalid-token error. -/
theorem c5_cex_missing_sub_keyerror :
    get_current_user ⟨true, [("exp", some "1700000000")]⟩ [] [] = .error .keyError ∧
    get_email_from_token ⟨true, [("exp", some "1700000000")]⟩ = .error .keyError ∧
    get_current_user ⟨true, [("exp", some "1700000000")]⟩ [] [] ≠ .error .http401 ∧
    get_email_from_token ⟨true, [("exp", some "1700000000")]⟩ ≠ .error .http422 := by
  refine ⟨rfl, rfl, ?_, ?_⟩ <;>
    simp [get_current_user, get_email_from_token, jwt_decode, dictGetSub,
      List.lookup]

/-- C5 amended: a token `jwt.decode` rejects (signature, expiry or format)
fails with 401 in the gate and 422 in action-token verification; a decoded
payload whose `sub` claim is present but null fails with the gate's 401
credentials error; but a decoded payload entirely lacking the `sub` key
raises an uncaught `KeyError` in both the gate and action-token
verification. -/
theorem c5_subject_claim_failures (t : Jwt) (cache : CacheState) (db : UserTable) :
    (t.decodes = false →
      get_current_user t cache db = .error .http401 ∧
      get_email_from_token t = .error .http422) ∧
    (t.decodes = true → t.claims.lookup "sub" = some none →
      get_current_user t cache db = .error .http401) ∧
    (t.decodes = true → t.claims.lookup "sub" = none →
      get_current_user t cache db = .error .keyError ∧
      get_email_from_token t = .error .keyError) := by
  refine ⟨?_, ?_, ?_⟩
  · intro h
    constructor <;> simp [get_current_user, get_email_from_token, jwt_decode, h]
  · intro h hs
    simp [get_current_user, jwt_decode, dictGetSub, h, hs]
  · intro h hs
    constructor <;>
      simp [get_current_user, get_email_from_token, jwt_decode, dictGetSub, h, hs]

/-- C5 witness: the three failure shapes at concrete tokens. -/
theorem c5_subject_claim_failures_witness :
    get_current_user ⟨false, []⟩ [] [] = .error .http401 ∧
    get_email_from_token ⟨false, []⟩ = .error .http422 ∧
    get_current_user ⟨true, [("sub", none)]⟩ [] [] = .error .http401 ∧
    get_current_user ⟨true, []⟩ [] [] = .error .keyError ∧
    get_email_from_token ⟨true, []⟩ = .error .keyError :=
  ⟨((c5_subject_claim_failures ⟨false, []⟩ [] []).1 rfl).1,
   ((c5_subject_claim_failures ⟨false, []⟩ [] []).1 rfl).2,
   (c5_subject_claim_failures ⟨true, [("sub", none)]⟩ [] []).2.1 rfl rfl,
   ((c5_subject_claim_failures ⟨true, []⟩ [] []).2.2 rfl rfl).1,
   ((c5_subject_claim_failures ⟨true, []⟩ [] []).2.2 rfl rfl).2⟩

/-- C8 counterexample: a cached entry that is valid JSON but not an object
(for example the string `5`) defeats the `json.JSONDecodeError` handler:
`json.loads` succeeds, `data.get("id")` raises an uncaught
`AttributeError`, and the gate propagates it instead of falling through. -/
theorem c8_cex_non_object_entry_raises :
    get_cached_current_user [("user:alice", CacheEntry.jsonNonObject)] "alice" =
      .error .attributeError ∧
    get_cached_current_user [("user:alice", CacheEntry.jsonNonObject)] "alice" ≠
      .ok none ∧
    get_current_user ⟨true, [("sub", some "alice")]⟩
        [("user:alice", CacheEntry.jsonNonObject)]
        [⟨1, "alice", some "alice@example.com", Digest.bcrypt "pw", UserRole.user, none, true⟩] =
      .error .attributeError := by
  refine ⟨rfl, ?_, rfl⟩
  simp [get_cached_current_user, List.lookup]

/-- C8 amended: a cached entry that is not syntactically valid JSON raises
`json.JSONDecodeError`, which the cache helper catches, returning absent;
the authentication gate then behaves exactly as with no cache entry and
falls through to the primary user store.  (A valid-JSON non-object entry,
by contrast, raises an uncaught `AttributeError`.) -/
theorem c8_cache_decode_failure_absent (cache : CacheState) (username : String)
    (db : UserTable) (t : Jwt)
    (hc : cache.lookup ("user:" ++ username) = some CacheEntry.notJson)
    (ht : t.decodes = true) (hs : t.claims.lookup "sub" = some (some username)) :
    get_cached_current_user cache username = .ok none ∧
    get_current_user t cache db = get_current_user t [] db ∧
    (∀ u, UserRepository.get_user_by_username db username = .ok (some u) →
      get_current_user t cache db = .ok u) := by
  have hget : get_cached_current_user cache username = .ok none := by
    simp [get_cached_current_user, hc]
  refine ⟨hget, ?_, ?_⟩
  · simp [get_current_user, jwt_decode, dictGetSub, ht, hs, hc,
      get_cached_current_user, List.lookup]
  · intro u hu
    simp [get_current_user, jwt_decode, dictGetSub, ht, hs, hc, hu,
      get_cached_current_user]

/-- C8 witness: a not-JSON entry for alice is treated as absent and the
gate resolves alice from the user store. -/
theorem c8_cache_decode_failure_absent_witness :
    get_cached_current_user [("user:alice", CacheEntry.notJson)] "alice" = .ok none ∧
    get_current_user ⟨true, [("sub", some "alice")]⟩
        [("user:alice", CacheEntry.notJson)]
        [⟨1, "alice", some "alice@example.com", Digest.bcrypt "pw", UserRole.user, none, true⟩] =
      .ok ⟨1, "alice", some "alice@example.com", Digest.bcrypt "pw", UserRole.user, none, true⟩ :=
  ⟨(c8_cache_decode_failure_absent [("user:alice", CacheEntry.notJson)] "alice"
      [⟨1, "alice", some "alice@example.com", Digest.bcrypt "pw", UserRole.user, none, true⟩]
      ⟨true, [("sub", some "alice")]⟩ rfl rfl rfl).1,
   (c8_cache_decode_failure_absent [("user:alice", CacheEntry.notJson)] "alice"
      [⟨1, "alice", some "alice@example.com", Digest.bcrypt "pw", UserRole.user, none, true⟩]
      ⟨true, [("sub", some "alice")]⟩ rfl rfl rfl).2.2
      ⟨1, "alice", some "alice@example.com", Digest.bcrypt "pw", UserRole.user, none, true⟩ rfl⟩

theorem get_contacts_length_le (today : Date) (db : ContactTable) (u : UserRec)
    (skip : Option Nat) (l : Nat) (f1 f2 f3 : Option String) (hl : l ≠ 0) :
    (ContactRepository.get_contacts today db u skip (some l) f1 f2 f3 false).length ≤ l := by
  have ht : ContactRepository.truthyNat (some l) = true := by
    simp [ContactRepository.truthyNat, hl]
  simp only [ContactRepository.get_contacts, ht, Bool.false_eq_true, if_false,
    if_true]
  split <;> simp [List.length_take]

/-- C4 counterexample: a request with `limit=5` is rejected by the
`Query(ge=10)` validation with a 422 error; it is not clamped to the floor
of 10 (with an empty table a clamped request would have returned the empty
200 result). -/
theorem c4_cex_limit_below_floor_rejected :
    ContactsApi.read_contacts ⟨2024, 1, 1⟩ []
        ⟨1, "alice", some "alice@example.com", Digest.bcrypt "pw", UserRole.user, none, true⟩
        (some 0) (some 5) none none none = .error .http422 ∧
    ContactsApi.read_contacts ⟨2024, 1, 1⟩ []
        ⟨1, "alice", some "alice@example.com", Digest.bcrypt "pw", UserRole.user, none, true⟩
        (some 0) (some 5) none none none ≠ .ok [] := by
  refine ⟨rfl, ?_⟩
  simp [ContactsApi.read_contacts, ContactsApi.validate_limit]

/-- C4 amended: for contact listing, an omitted `limit` defaults to 10 and
the result never holds more than `limit` rows; a caller may raise `limit`
up to 100; but a requested limit outside `10 ≤ limit ≤ 100` (e.g.
`limit=5`) is rejected with a 422 validation error by `Query(ge=10,
le=100)` rather than clamped to the floor of 10. -/
theorem c4_limit_validation (today : Date) (db : ContactTable) (user : UserRec)
    (skip : Option Nat) (l : Nat) (f1 f2 f3 : Option String) :
    ContactsApi.validate_limit none = .ok 10 ∧
    (∀ res, ContactsApi.read_contacts today db user skip none f1 f2 f3 = .ok res →
      res.length ≤ 10) ∧
    (10 ≤ l → l ≤ 100 →
      ∀ res, ContactsApi.read_contacts today db user skip (some l) f1 f2 f3 = .ok res →
        res.length ≤ l) ∧
    (l < 10 ∨ 100 < l →
      ContactsApi.read_contacts today db user skip (some l) f1 f2 f3 =
        .error .http422) := by
  refine ⟨rfl, ?_, ?_, ?_⟩
  · intro res hres
    simp only [ContactsApi.read_contacts, ContactsApi.validate_limit] at hres
    cases hres
    exact get_contacts_length_le today db user (some (skip.getD 0)) 10 f1 f2 f3
      (by decide)
  · intro h10 h100 res hres
    have hv : ContactsApi.validate_limit (some l) = .ok l := by
      simp [ContactsApi.validate_limit, h10, h100]
    simp only [ContactsApi.read_contacts, hv] at hres
    cases hres
    exact get_contacts_length_le today db user (some (skip.getD 0)) l f1 f2 f3
      (by omega)
  · intro hout
    have hv : ContactsApi.validate_limit (some l) = .error .http422 := by
      rcases hout with h | h <;> simp [ContactsApi.validate_limit] <;> omega
    simp [ContactsApi.read_contacts, hv]

/-- C4 witness: the amended statement at accepted and rejected limits. -/
theorem c4_limit_validation_witness :
    ContactsApi.validate_limit none = .ok 10 ∧
    ([] : List Contact).length ≤ 100 ∧
    ContactsApi.read_contacts ⟨2024, 1, 1⟩ []
        ⟨1, "alice", some "alice@example.com", Digest.bcrypt "pw", UserRole.user, none, true⟩
        none (some 5) none none none = .error .http422 :=
  ⟨(c4_limit_validation ⟨2024, 1, 1⟩ []
      ⟨1, "alice", some "alice@example.com", Digest.bcrypt "pw", UserRole.user, none, true⟩
      none 100 none none none).1,
   (c4_limit_validation ⟨2024, 1, 1⟩ []
      ⟨1, "alice", some "alice@example.com", Digest.bcrypt "pw", UserRole.user, none, true⟩
      none 100 none none none).2.2.1 (by decide) (by decide) [] rfl,
   (c4_limit_validation ⟨2024, 1, 1⟩ []
      ⟨1, "alice", some "alice@example.com", Digest.bcrypt "pw", UserRole.user, none, true⟩
      none 5 none none none).2.2.2 (Or.inl (by decide))⟩

/-- C7: email confirmation is idempotent.  For a valid action token whose
subject is the email of an existing, not-yet-confirmed user, the first
`GET /auth/confirmed_email/{token}` performs exactly one store write that
flips the confirmed flag and answers "verified"; a second identical request
short-circuits on the now-true flag, answers "already verified", performs
zero store writes and leaves the table unchanged. -/
theorem c7_confirmed_email_idempotent (db : UserTable) (t : Jwt) (e : String)
    (u : UserRec) (ht : t.decodes = true)
    (hs : t.claims.lookup "sub" = some (some e))
    (hu : UserRepository.get_user_by_email db (some e) = .ok (some u))
    (hc : u.confirmed = false) :
    AuthApi.confirmed_email db t =
      .ok ("Your email is verified",
        db.map (fun x => if x.email = some e then { u with confirmed := true } else x), 1) ∧
    AuthApi.confirmed_email
        (db.map (fun x => if x.email = some e then { u with confirmed := true } else x)) t =
      .ok ("Your email is already verified",
        db.map (fun x => if x.email = some e then { u with confirmed := true } else x), 0) := by
  have hfilter : db.filter (fun x => x.email == some e) = [u] := scalar_one_iff.mp hu
  have hue : (u.email == some e) = true := by
    have hmem : u ∈ db.filter (fun x => x.email == some e) := by
      rw [hfilter]; exact List.mem_singleton_self u
    exact (List.mem_filter.mp hmem).2
  have hue' : u.email = some e := by simpa using hue
  have hpres : ∀ x : UserRec,
      (((if x.email = some e then { u with confirmed := true } else x) : UserRec).email
        == some e) = (x.email == some e) := by
    intro x
    by_cases hx : x.email = some e
    · simp [hx, hue']
    · simp [hx]
  have hu' : UserRepository.get_user_by_email
      (db.map (fun x => if x.email = some e then { u with confirmed := true } else x))
      (some e) = .ok (some { u with confirmed := true }) := by
    simp only [UserRepository.get_user_by_email]
    rw [filter_map_of_pres (fun x : UserRec => x.email == some e)
        (fun x => if x.email = some e then { u with confirmed := true } else x) hpres db,
      hfilter]
    simp [scalar_one_or_none, hue']
  constructor
  · simp [AuthApi.confirmed_email, get_email_from_token, jwt_decode, dictGetSub,
      ht, hs, UserService.get_user_by_email, hu, hc,
      UserService.confirmed_email, UserRepository.confirmed_email]
  · simp [AuthApi.confirmed_email, get_email_from_token, jwt_decode, dictGetSub,
      ht, hs, UserService.get_user_by_email, hu']

/-- C7 witness: the two calls on a concrete one-user table. -/
theorem c7_confirmed_email_idempotent_witness :
    AuthApi.confirmed_email
        [⟨1, "testuser", some "t@example.com", Digest.bcrypt "pw", UserRole.user, none, false⟩]
        ⟨true, [("sub", some "t@example.com")]⟩ =
      .ok ("Your email is verified",
        [⟨1, "testuser", some "t@example.com", Digest.bcrypt "pw", UserRole.user, none, true⟩], 1) ∧
    AuthApi.confirmed_email
        [⟨1, "testuser", some "t@example.com", Digest.bcrypt "pw", UserRole.user, none, true⟩]
        ⟨true, [("sub", some "t@example.com")]⟩ =
      .ok ("Your email is already verified",
        [⟨1, "testuser", some "t@example.com", Digest.bcrypt "pw", UserRole.user, none, true⟩], 0) := by
  have h := c7_confirmed_email_idempotent
    [⟨1, "testuser", some "t@example.com", Digest.bcrypt "pw", UserRole.user, none, false⟩]
    ⟨true, [("sub", some "t@example.com")]⟩ "t@example.com"
    ⟨1, "testuser", some "t@example.com", Digest.bcrypt "pw", UserRole.user, none, false⟩
    rfl rfl rfl rfl
  exact ⟨h.1, h.2⟩

/-- C1: `POST /auth/reset_password/{token}` on a valid action token for an
existing confirmed user does not succeed: the handler calls
`user_service.update_password`, a method `class UserService` does not
define, so Python raises an uncaught `AttributeError` and no write occurs
(the repository's own `update_password`, which the facade should delegate
to, would have replaced the stored hash with a bcrypt digest of the
submitted password, as the repository's test suite expects).  The failure
branches do behave as claimed: an invalid token yields 422 and a missing or
unconfirmed user yields 400, all without touching the stored hash. -/
theorem c1_reset_password_missing_method :
    UserService.methods.contains "update_password" = false ∧
    AuthApi.reset_password
        [⟨1, "testuser", some "testuser@example.com", Digest.bcrypt "12345678",
          UserRole.user, none, true⟩]
        ⟨true, [("sub", some "testuser@example.com")]⟩ "newsecurepassword123" =
      .error .attributeError ∧
    AuthApi.reset_password
        [⟨1, "testuser", some "testuser@example.com", Digest.bcrypt "12345678",
          UserRole.user, none, true⟩]
        ⟨false, []⟩ "newsecurepassword123" = .error .http422 ∧
    AuthApi.reset_password [] ⟨true, [("sub", some "missing@example.com")]⟩
        "newsecurepassword123" = .error .http400 ∧
    AuthApi.reset_password
        [⟨1, "testuser", some "testuser@example.com", Digest.bcrypt "12345678",
          UserRole.user, none, false⟩]
        ⟨true, [("sub", some "testuser@example.com")]⟩ "newsecurepassword123" =
      .error .http400 ∧
    UserRepository.update_password
        [⟨1, "testuser", some "testuser@example.com", Digest.bcrypt "12345678",
          UserRole.user, none, true⟩]
        (some "testuser@example.com") (Hash.get_password_hash "newsecurepassword123") =
      .ok [⟨1, "testuser", some "testuser@example.com",
            Digest.bcrypt "newsecurepassword123", UserRole.user, none, true⟩] :=
  ⟨rfl, rfl, rfl, rfl, rfl, rfl⟩

theorem mem_get_contacts_owner (today : Date) (db : ContactTable) (u : UserRec)
    (skip limit : Option Nat) (f1 f2 f3 : Option String) (bd : Bool) (x : Contact)
    (hx : x ∈ ContactRepository.get_contacts today db u skip limit f1 f2 f3 bd) :
    (x.user_id == u.id) = true := by
  have step : ∀ y : Contact, y ∈ db.filter (fun cc => cc.user_id == u.id) →
      (y.user_id == u.id) = true := fun y hy => (List.mem_filter.mp hy).2
  simp only [ContactRepository.get_contacts] at hx
  split at hx
  · exact step x (List.mem_filter.mp hx).1
  · split at hx
    · have hx' := List.take_subset _ _ hx
      split at hx'
      · exact step x (List.mem_filter.mp (List.drop_subset _ _ hx')).1
      · exact step x (List.mem_filter.mp hx').1
    · split at hx
      · exact step x (List.mem_filter.mp (List.drop_subset _ _ hx)).1
      · exact step x (List.mem_filter.mp hx).1

/-- C3: ownership isolation.  For distinct users A and B (distinct primary
keys) and a contact owned by A in a table with unique contact ids, no
`ContactRepository` operation invoked as B ever returns, modifies or
deletes that contact: it is absent from every `get_contacts` result,
`get_contact_by_id` answers absent, and `update_contact`/`remove_contact`
answer absent leaving the table unchanged. -/
theorem c3_ownership_isolation (db : ContactTable) (a b : UserRec) (c : Contact)
    (hmem : c ∈ db) (hown : c.user_id = a.id) (hne : b.id ≠ a.id)
    (hids : (db.map Contact.id).Nodup) (body : ContactRepository.ContactBody) :
    (∀ today skip limit f1 f2 f3 bd,
      c ∉ ContactRepository.get_contacts today db b skip limit f1 f2 f3 bd) ∧
    ContactRepository.get_contact_by_id db b c.id = .ok none ∧
    ContactRepository.update_contact db b c.id body = .ok (none, db) ∧
    ContactRepository.remove_contact db b c.id = .ok (none, db) := by
  have hinj := List.inj_on_of_nodup_map hids
  have hfe : db.filter (fun x => x.user_id == b.id && x.id == c.id) = [] := by
    apply List.filter_eq_nil_iff.mpr
    intro x hx
    simp only [Bool.and_eq_true, beq_iff_eq, not_and]
    intro hxu hxc
    have hxe : x = c := hinj hx hmem hxc
    rw [hxe] at hxu
    rw [hown] at hxu
    exact hne hxu.symm
  have hbyid : ContactRepository.get_contact_by_id db b c.id = .ok none := by
    simp [ContactRepository.get_contact_by_id, hfe, scalar_one_or_none]
  refine ⟨?_, hbyid, ?_, ?_⟩
  · intro today skip limit f1 f2 f3 bd hcmem
    have hb := mem_get_contacts_owner today db b skip limit f1 f2 f3 bd c hcmem
    rw [hown] at hb
    exact hne (beq_iff_eq.mp hb).symm
  · simp [ContactRepository.update_contact, hbyid]
  · simp [ContactRepository.remove_contact, hbyid]

/-- C3 witness: user B (id 2) cannot see or touch the contact of user A
(id 1). -/
theorem c3_ownership_isolation_witness :
    (⟨1, "Alice", none, none, "tel:+380-68-123-4861", none, 1⟩ : Contact) ∉
      ContactRepository.get_contacts ⟨2024, 1, 1⟩
        [⟨1, "Alice", none, none, "tel:+380-68-123-4861", none, 1⟩]
        ⟨2, "bob", some "b@example.com", Digest.bcrypt "pw", UserRole.user, none, true⟩
        none none none none none false ∧
    ContactRepository.get_contact_by_id
        [⟨1, "Alice", none, none, "tel:+380-68-123-4861", none, 1⟩]
        ⟨2, "bob", some "b@example.com", Digest.bcrypt "pw", UserRole.user, none, true⟩ 1 =
      .ok none ∧
    ContactRepository.update_contact
        [⟨1, "Alice", none, none, "tel:+380-68-123-4861", none, 1⟩]
        ⟨2, "bob", some "b@example.com", Digest.bcrypt "pw", UserRole.user, none, true⟩ 1
        ⟨none, none, none, none, none⟩ =
      .ok (none, [⟨1, "Alice", none, none, "tel:+380-68-123-4861", none, 1⟩]) ∧
    ContactRepository.remove_contact
        [⟨1, "Alice", none, none, "tel:+380-68-123-4861", none, 1⟩]
        ⟨2, "bob", some "b@example.com", Digest.bcrypt "pw", UserRole.user, none, true⟩ 1 =
      .ok (none, [⟨1, "Alice", none, none, "tel:+380-68-123-4861", none, 1⟩]) := by
  have h := c3_ownership_isolation
    [⟨1, "Alice", none, none, "tel:+380-68-123-4861", none, 1⟩]
    ⟨1, "alice", some "a@example.com", Digest.bcrypt "pw", UserRole.user, none, true⟩
    ⟨2, "bob", some "b@example.com", Digest.bcrypt "pw", UserRole.user, none, true⟩
    ⟨1, "Alice", none, none, "tel:+380-68-123-4861", none, 1⟩
    (List.mem_singleton_self _) rfl (by decide) (by simp)
    ⟨none, none, none, none, none⟩
  exact ⟨h.1 ⟨2024, 1, 1⟩ none none none none none false, h.2.1, h.2.2.1, h.2.2.2⟩

/-- The upcoming-birthday predicate as the spec words it (for comparison
with the code's `_has_birthday_next_days`): the contact's age-in-years
computed as of `today + 7 days` is strictly greater than the age-in-years
computed as of `today`. -/
def specBirthdayWindow (today dob : Date) : Bool :=
  agePartYear (addDays today 7) dob > agePartYear today dob

/-- Test fixture (tests/conftest.py): one owner's contacts with dates of
birth at day offsets +3, +10, -5 and +6 from the reference day 2023-12-28,
in the 2000/2001 birth-year frame, crossing the December→January year
boundary. -/
def offsetFixture : ContactTable :=
  [⟨1, "Alice", some "Smith", some "alice@example.com", "tel:+380-68-123-4861",
    some ⟨2000, 12, 31⟩, 1⟩,
   ⟨2, "Bob", some "Brown", some "bob@example.com", "tel:+380-66-123-4862",
    some ⟨2001, 1, 7⟩, 1⟩,
   ⟨3, "Charlie", some "Johnson", some "charlie@example.com", "tel:+380-67-123-4863",
    some ⟨2000, 12, 23⟩, 1⟩,
   ⟨4, "Dana", some "White", some "dana@example.com", "tel:+380-63-123-4864",
    some ⟨2001, 1, 3⟩, 1⟩]

/-- C2 counterexample: the code's window is not "age at (today + 7 days)
exceeds age today".  With today = 2024-02-27 (a leap year) and date of
birth 2001-03-06 (a non-leap year), `dob - 7 days` is 2001-02-27 — the
7-day shift is taken in the birth year's February — so the code includes
the contact, although its birthday (2024-03-06) is 8 days away and the
age computed as of today + 7 days (2024-03-05) has not increased. -/
theorem c2_cex_leap_window :
    ContactRepository.has_birthday_next_days ⟨2024, 2, 27⟩ ⟨2001, 3, 6⟩ 7 = true ∧
    specBirthdayWindow ⟨2024, 2, 27⟩ ⟨2001, 3, 6⟩ = false ∧
    (⟨7, "Frank", none, none, "tel:+380-67-000-0001", some ⟨2001, 3, 6⟩, 1⟩ : Contact) ∈
      ContactsApi.read_contacts_with_birthdays ⟨2024, 2, 27⟩
        [⟨7, "Frank", none, none, "tel:+380-67-000-0001", some ⟨2001, 3, 6⟩, 1⟩]
        ⟨1, "alice", some "a@example.com", Digest.bcrypt "pw", UserRole.user, none, true⟩ := by
  refine ⟨by decide, by decide, by decide⟩

/-- C2 amended: the upcoming-birthday query includes a contact (with
non-null date of birth) exactly when the code's predicate holds: the
age-in-years of `dob - 7 days` as of today is strictly greater than the
age-in-years of `dob` as of today (the 7-day shift is applied to the date
of birth in its own calendar year, which matches the spec's "age as of
today + 7 days" except when the shifted window spans a Feb 28/29 boundary
whose leapness differs between the birth year and the current year).
Concretely, for contacts at day offsets +3, +10, -5, +6 from reference day
2023-12-28, the query returns exactly the +3 and +6 entries across the
December→January boundary. -/
theorem c2_birthday_window (today : Date) (db : ContactTable) (user : UserRec)
    (skip limit : Option Nat) (f1 f2 f3 : Option String) (c : Contact) :
    (c ∈ ContactRepository.get_contacts today db user skip limit f1 f2 f3 true ↔
      c ∈ db ∧ c.user_id = user.id ∧
        ∃ d, c.date_of_birth = some d ∧
          ContactRepository.has_birthday_next_days today d 7 = true) ∧
    ContactsApi.read_contacts_with_birthdays ⟨2023, 12, 28⟩ offsetFixture
        ⟨1, "alice", some "a@example.com", Digest.bcrypt "pw", UserRole.user, none, true⟩ =
      [⟨1, "Alice", some "Smith", some "alice@example.com", "tel:+380-68-123-4861",
        some ⟨2000, 12, 31⟩, 1⟩,
       ⟨4, "Dana", some "White", some "dana@example.com", "tel:+380-63-123-4864",
        some ⟨2001, 1, 3⟩, 1⟩] := by
  have hrw : ContactRepository.get_contacts today db user skip limit f1 f2 f3 true =
      (db.filter (fun x => x.user_id == user.id)).filter
        (ContactRepository.birthdayFilter today) := by
    simp [ContactRepository.get_contacts]
  constructor
  · rw [hrw]
    constructor
    · intro hc
      have h1 := List.mem_filter.mp hc
      have h2 := List.mem_filter.mp h1.1
      refine ⟨h2.1, by simpa using h2.2, ?_⟩
      have hb := h1.2
      unfold ContactRepository.birthdayFilter at hb
      cases hd : c.date_of_birth with
      | none => rw [hd] at hb; cases hb
      | some d => rw [hd] at hb; exact ⟨d, rfl, hb⟩
    · rintro ⟨hcm, hcu, d, hd, hbd⟩
      refine List.mem_filter.mpr ⟨List.mem_filter.mpr ⟨hcm, by simpa using hcu⟩, ?_⟩
      unfold ContactRepository.birthdayFilter
      rw [hd]
      exact hbd
  · decide

/-- C2 witness: the concrete offsets instance of the amended statement. -/
theorem c2_birthday_window_witness :
    ContactsApi.read_contacts_with_birthdays ⟨2023, 12, 28⟩ offsetFixture
        ⟨1, "alice", some "a@example.com", Digest.bcrypt "pw", UserRole.user, none, true⟩ =
      [⟨1, "Alice", some "Smith", some "alice@example.com", "tel:+380-68-123-4861",
        some ⟨2000, 12, 31⟩, 1⟩,
       ⟨4, "Dana", some "White", some "dana@example.com", "tel:+380-63-123-4864",
        some ⟨2001, 1, 3⟩, 1⟩] :=
  (c2_birthday_window ⟨2023, 12, 28⟩ [] ⟨1, "alice", none, Digest.bcrypt "pw",
    UserRole.user, none, true⟩ none none none none none
    ⟨1, "x", none, none, "t", none, 1⟩).2

end ContactsApp
